import Mathlib

/-!
Shallow embedding of `src/assets/notify-me.js` (`NotifyMeComponent`), a
"notify me when back in stock" storefront widget.  DOM queries and network
responses are modelled as explicit environment inputs; the handlers become
pure functions from those inputs to the observable effects they produce
(display changes, messages shown, requests issued, listeners added or
removed, timeouts scheduled).
-/

namespace NotifyMe

/-! ## Variant availability events (`handleVariantUpdate`, lines 79–106) -/

/-- The `resource` object carried by the `detail` payload of a variant event.
`available` is `some b` when the JS field is literally the boolean `b`;
`none` models an absent or non-boolean field (the JS code tests it with
strict equality `=== false` / `=== true`, so any non-boolean behaves the
same as absence). -/
structure Variant where
  id : String
  available : Option Bool
deriving Repr, DecidableEq

/-- Observable effect of `handleVariantUpdate` on the display of the control:
the handler sets `display` on the component and the button (shown or
hidden), or returns early leaving it unchanged when the button is missing. -/
inductive Display where
  | shown
  | hidden
  | unchanged
deriving Repr, DecidableEq

/-- `handleVariantUpdate` (notify-me.js lines 79–106).
`hasButton` models whether `this.querySelector("#notify-me-button")`
finds the button (otherwise the handler returns without changes);
`resource` models `event.detail?.resource`, `none` covering a missing
`detail`, a missing `resource`, or a `null` resource. -/
def handleVariantUpdate (hasButton : Bool) (resource : Option Variant) : Display :=
  if !hasButton then .unchanged
  else
    match resource with
    | some variant =>
      if variant.available = some false then .shown
      else if variant.available = some true then .hidden
      else .hidden
    | none => .hidden

/-- The two theme event types the component subscribes to
(`ThemeEvents.variantUpdate` and `ThemeEvents.variantSelected`). -/
inductive ThemeEventType where
  | variantUpdate
  | variantSelected
deriving Repr, DecidableEq

/-- `setupVariantUpdateListener` (lines 54–73) registers the single bound
handler `boundVariantUpdateHandler` for both event types, so receipt of
either event type runs `handleVariantUpdate` on the payload. -/
def onVariantEvent (_t : ThemeEventType) (hasButton : Bool)
    (resource : Option Variant) : Display :=
  handleVariantUpdate hasButton resource

/-! ## Variant resolution (`getVariantId`, lines 287–340) -/

/-- Environment of DOM queries consulted by `getVariantId`.  Each field
records the result of one query exactly as the code performs it:

* `productFormInput`: `none` if `this.closest("product-form-component")`
  is `null`; `some none` if the ancestor exists but
  `querySelector` (selector `input[name="id"], input[ref="variantId"]`) finds no
  input; `some (some v)` when the first matching input has `value = v`.
* `sectionInputs`: `none` if `this.closest(".shopify-section")` is `null`;
  `some vs` lists the values of all matching inputs in the section, in
  document order (`querySelectorAll`).
* `pickerChecked`: `none` if `document.querySelector("variant-picker")` is
  `null`; `some none` if no `input[data-variant-id]:checked` inside it;
  `some (some none)` if the checked input lacks the data attribute;
  `some (some (some v))` when `dataset.variantId = v`.
* `urlVariant`: the result of `new URLSearchParams(location.search).get("variant")`,
  `none` when the parameter is absent. -/
structure Dom where
  productFormInput : Option (Option String)
  sectionInputs : Option (List String)
  pickerChecked : Option (Option (Option String))
  urlVariant : Option String
deriving Repr, DecidableEq

/-- Tier 1: the value of the first `input[name="id"], input[ref="variantId"]`
inside the closest `product-form-component` ancestor, if non-empty
(the JS guard is `value && value !== ""`). -/
def tierProductForm (d : Dom) : Option String :=
  match d.productFormInput with
  | some (some value) => if value = "" then none else some value
  | _ => none

/-- Tier 2: the first non-empty value among all matching inputs in the
closest `.shopify-section` (the `for … of` loop returns on the first
`value && value !== ""`). -/
def tierSection (d : Dom) : Option String :=
  match d.sectionInputs with
  | some inputs => inputs.find? (fun value => value != "")
  | none => none

/-- Tier 3: `dataset.variantId` of the checked `input[data-variant-id]`
inside the page-level `variant-picker`, if truthy (non-empty). -/
def tierPicker (d : Dom) : Option String :=
  match d.pickerChecked with
  | some (some (some variantId)) => if variantId = "" then none else some variantId
  | _ => none

/-- Tier 4: the `variant` URL query parameter, if truthy (non-empty;
`urlParams.get` yields `null` for an absent parameter and the code guards
with `if (variantFromUrl)`). -/
def tierUrl (d : Dom) : Option String :=
  match d.urlVariant with
  | some v => if v = "" then none else some v
  | none => none

/-- `getVariantId` (notify-me.js lines 287–340), transcribed block by
block: each `if (...) return value` becomes a `match` on the
corresponding tier, falling through to the next block. -/
def getVariantId (d : Dom) : Option String :=
  match tierProductForm d with
  | some value => some value
  | none =>
    match tierSection d with
    | some value => some value
    | none =>
      match tierPicker d with
      | some variantId => some variantId
      | none =>
        match tierUrl d with
        | some variantFromUrl => some variantFromUrl
        | none => none

end NotifyMe

namespace NotifyMe

/-! ## Subscription submission (`showEmailModal` submit handler, lines
209–272, and `submitNotification`, lines 347–383) -/

/-- A JS `Error`-like value: its `name` and `message` fields, which are all
the code inspects. -/
structure JsError where
  name : String
  message : String
deriving Repr, DecidableEq

/-- The two fields of a parsed JSON error body that the code consults
(`errorData.message`, `errorData.error`); `none` models an absent field. -/
structure JsonBody where
  message : Option String
  error : Option String
deriving Repr, DecidableEq

/-- Result of calling `response.json()`: `parsed` when the body parses as
JSON, `failed` with the rejection error (a `SyntaxError`) otherwise. -/
inductive JsonParse where
  | parsed (body : JsonBody)
  | failed (err : JsError)
deriving Repr, DecidableEq

/-- Outcome of the `fetch` call as observed by `submitNotification`:
either the returned promise rejects (transport-level failure, in browsers
a `TypeError`) or a response arrives; `ok` mirrors `response.ok`. -/
inductive FetchOutcome where
  | reject (err : JsError)
  | response (ok : Bool) (status : Nat) (jsonBody : JsonParse)
deriving Repr, DecidableEq

/-- Whether the first character list is an initial segment of the second. -/
def leadsChars : List Char → List Char → Bool
  | [], _ => true
  | _ :: _, [] => false
  | a :: as, b :: bs => a == b && leadsChars as bs

/-- Whether `pat` occurs contiguously in the second character list. -/
def hasSubChars (pat : List Char) : List Char → Bool
  | [] => leadsChars pat []
  | c :: rest => leadsChars pat (c :: rest) || hasSubChars pat rest

/-- JS `String.prototype.includes`: `pat` occurs contiguously in `s`. -/
def strIncludes (s pat : String) : Bool :=
  hasSubChars pat.data s.data

/-- JS `String.prototype.trim`: strip leading and trailing whitespace. -/
def jsTrim (s : String) : String :=
  ⟨((s.data.dropWhile Char.isWhitespace).reverse.dropWhile Char.isWhitespace).reverse⟩

/-- JS `x || y` where `x` is a possibly-absent string field: falls through
to `y` on an absent field and on the empty string (both falsy). -/
def jsOrString (x : Option String) (y : String) : String :=
  match x with
  | some s => if s = "" then y else s
  | none => y

/-- Message shown by the email validation branch (line 222). -/
def validationMessage : String := "Please enter a valid email address."

/-- Message shown when `getVariantId` returns null (line 234). -/
def variantErrorMessage : String := "Error: Could not determine product variant."

/-- Message shown on a successful submission (line 249). -/
def successMessage : String := "Thank you! We\x27ll notify you when this product is back in stock."

/-- Fallback message of the submit-handler catch block (line 261), used
when the caught error has an empty message. -/
def genericErrorMessage : String := "Sorry, there was an error. Please try again."

/-- The fixed generic connectivity message (lines 377–379). -/
def networkErrorMessage : String := "Network error. Please check your connection and try again."

/-- `submitNotification` (lines 347–383) as observed by its caller: `.ok`
when the promise it returns fulfils, `.error e` when it rejects with `e`.

* When `fetch` itself rejects, the catch block rewraps the error as the
  fixed generic connectivity `Error` when `error.name === "TypeError"` and
  `error.message.includes("fetch")`, and rethrows it unchanged otherwise.
* On a non-ok response, the thrown `Error` message is the `message` field
  of the parsed body, else its `error` field, else `HTTP <status>` (JS
  `||` chain, so empty strings also fall through); when the body fails to
  parse, the inner catch keeps the `HTTP <status>` fallback.  The thrown
  `Error` has name `Error`, so the outer catch rethrows it unchanged.
* On an ok response, `return response.json()` is NOT awaited inside the
  `try`, so the outer catch never sees a parse failure: a non-JSON body
  rejects at the caller with the raw parse error. -/
def submitNotification (outcome : FetchOutcome) : Except JsError Unit :=
  match outcome with
  | .reject err =>
    if err.name = "TypeError" && strIncludes err.message "fetch" then
      .error ⟨"Error", networkErrorMessage⟩
    else
      .error err
  | .response ok status jsonBody =>
    if !ok then
      let base := "HTTP " ++ toString status
      let errorMessage :=
        match jsonBody with
        | .parsed errorData => jsOrString errorData.message (jsOrString errorData.error base)
        | .failed _ => base
      .error ⟨"Error", errorMessage⟩
    else
      match jsonBody with
      | .parsed _ => .ok ()
      | .failed e => .error e

/-- Observable effects of one run of the form submit handler. -/
structure SubmitOutcome where
  /-- The `showMessage` call made, as (text, type); `none` if no message
  was shown. -/
  message : Option (String × String)
  /-- The network request issued, as (variantId, email); `none` when the
  handler returned before calling `submitNotification`. -/
  request : Option (String × String)
  /-- The submit button state while the request was in flight, as
  (disabled, label); `none` when no request was made. -/
  busy : Option (Bool × String)
  /-- The final value of the email input. -/
  emailValue : String
  /-- Delay in ms of a `setTimeout(closeModal, …)` scheduled by this run,
  if any. -/
  closeDelayMs : Option Nat
  /-- The final disabled flag of the submit button. -/
  buttonDisabled : Bool
  /-- The final label of the submit button. -/
  buttonLabel : String
deriving Repr, DecidableEq

/-- The form submit handler installed by `showEmailModal` (lines 209–272).

* `emailRaw` is the raw value of the email input at submit time (the code
  trims it before validating, but clears or keeps the input as a whole);
* `dom` is the DOM environment consulted by `getVariantId`;
* `net` is the outcome of the `fetch` call (consulted only when a request
  is actually issued);
* `buttonLabel0` is the label of the submit button before submission
  (captured into `originalText`; `Notify Me` in the generated markup).

The handler assumes the email input, message container and submit button
are present, as they are in the fixed template (otherwise it returns with
no effect).  The flow: validation guard, variant-resolution guard, then
disable the button, set its label to `Submitting...`, await
`submitNotification`, show the success or error message, and in `finally`
re-enable the button and restore `originalText`. -/
def handleSubmit (emailRaw : String) (dom : Dom) (net : FetchOutcome)
    (buttonLabel0 : String) : SubmitOutcome :=
  let email := jsTrim emailRaw
  if email = "" || !(email.data.contains '@') then
    { message := some (validationMessage, "error")
      request := none
      busy := none
      emailValue := emailRaw
      closeDelayMs := none
      buttonDisabled := false
      buttonLabel := buttonLabel0 }
  else
    match getVariantId dom with
    | none =>
      { message := some (variantErrorMessage, "error")
        request := none
        busy := none
        emailValue := emailRaw
        closeDelayMs := none
        buttonDisabled := false
        buttonLabel := buttonLabel0 }
    | some variantId =>
      let originalText := buttonLabel0
      match submitNotification net with
      | .ok _ =>
        { message := some (successMessage, "success")
          request := some (variantId, email)
          busy := some (true, "Submitting...")
          emailValue := ""
          closeDelayMs := some 2500
          buttonDisabled := false
          buttonLabel := originalText }
      | .error err =>
        { message := some (jsOrString (some err.message) genericErrorMessage, "error")
          request := some (variantId, email)
          busy := some (true, "Submitting...")
          emailValue := emailRaw
          closeDelayMs := none
          buttonDisabled := false
          buttonLabel := originalText }

end NotifyMe

namespace NotifyMe

/-! ## Scope of the variant-event listeners (`connectedCallback` lines
12–19, `disconnectedCallback` lines 21–36, `setupVariantUpdateListener`
lines 54–73) -/

/-- The event target chosen by `this.closest(".shopify-section") || document`:
the nearest enclosing section container (tagged by a number) or the
document when none exists. -/
inductive Scope where
  | sectionScope (id : Nat)
  | document
deriving Repr, DecidableEq

/-- `this.closest(".shopify-section") || document`.  The code evaluates
this expression twice — once inside `setupVariantUpdateListener` and again
inside `disconnectedCallback` — instead of storing the chosen scope.
`closest` answers relative to the ancestry of the component at the moment
of the call: `disconnectedCallback` runs after the element has been
disconnected, so when the component alone was removed from its section the
second lookup no longer finds the section ancestor. -/
def resolveScope (closestSection : Option Nat) : Scope :=
  match closestSection with
  | some s => .sectionScope s
  | none => .document

/-- One registered variant-event listener: the scope it was added on, the
event type, and the identity of the handler closure
(`boundVariantUpdateHandler`, one per component instance, tagged by a
number). -/
structure Listener where
  scope : Scope
  eventType : ThemeEventType
  handler : Nat
deriving Repr, DecidableEq

/-- `setupVariantUpdateListener` (lines 54–73): resolve the scope from the
ancestry at attachment time, then `addEventListener` the bound handler for
`variantUpdate` and for `variantSelected` on that scope. -/
def setupVariantUpdateListener (closestAtConnect : Option Nat)
    (handler : Nat) (listeners : List Listener) : List Listener :=
  let scope := resolveScope closestAtConnect
  listeners ++ [⟨scope, .variantUpdate, handler⟩, ⟨scope, .variantSelected, handler⟩]

/-- `disconnectedCallback` (lines 21–36), in the state where
`boundVariantUpdateHandler` is set (it always is after attachment): resolve
the scope AGAIN from the ancestry at detachment time and
`removeEventListener` the bound handler for both event types from that
scope.  `removeEventListener` with no matching registration is a no-op,
which `List.erase` models. -/
def disconnectedCallback (closestAtDisconnect : Option Nat)
    (handler : Nat) (listeners : List Listener) : List Listener :=
  let scope := resolveScope closestAtDisconnect
  (listeners.erase ⟨scope, .variantUpdate, handler⟩).erase
    ⟨scope, .variantSelected, handler⟩

end NotifyMe

namespace NotifyMe

/-! ## Modal lifecycle (`showEmailModal` lines 159–206, `closeModal`
lines 188–194) -/

/-- Document-level modal state.  Modal nodes are tagged with fresh numbers
in insertion order; every one of them carries the same fixed element id
`notify-me-modal`, so `document.getElementById` resolves to the FIRST node
in the list.  `keydownHandlers` lists the active document-level keydown
listeners in registration order, tagged by the open that installed them;
`visible` lists the nodes carrying the `notify-me-modal--visible` class;
`pendingRemovals` lists the nodes with a scheduled
`setTimeout(() => modal.remove(), 300)` not yet fired. -/
structure DocState where
  modals : List Nat
  visible : List Nat
  keydownHandlers : List Nat
  pendingRemovals : List Nat
  nextTag : Nat
deriving Repr, DecidableEq

/-- The document before any modal has been opened. -/
def DocState.init : DocState := ⟨[], [], [], [], 0⟩

/-- Result of one `showEmailModal` call: the new document state, the
keydown handler this open installed (`handlerId`, the `handleKeydown`
closure), and the modal node all of the closures of this open act upon
(`target`).  The code inserts the markup and then re-queries
`document.getElementById("notify-me-modal")`, which yields the FIRST
element with that id — the oldest still-attached modal, not necessarily
the node just inserted. -/
structure OpenResult where
  state : DocState
  handlerId : Nat
  target : Nat
deriving Repr, DecidableEq

/-- `showEmailModal` DOM/listener effects (lines 159–206): insert a fresh
modal node at the end of `document.body`, resolve `modal` by id (first
match), add the visibility class to it on the next animation frame, and
install the keydown listener on the document.  (Form, click and focus
wiring on the resolved `modal` node are not part of this state.) -/
def openModal (s : DocState) : OpenResult :=
  let t := s.nextTag
  let modals := s.modals ++ [t]
  let target := modals.headD t
  { state :=
      { modals := modals
        visible := if target ∈ s.visible then s.visible else s.visible ++ [target]
        keydownHandlers := s.keydownHandlers ++ [t]
        pendingRemovals := s.pendingRemovals
        nextTag := t + 1 }
    handlerId := t
    target := target }

/-- The `closeModal` closure (lines 188–194) created by the open that
installed keydown listener `handlerId` and resolved modal node `target`:
`document.removeEventListener` of its own keydown handler (a no-op when
already removed), `classList.remove` of the visibility class on `target`
(a no-op when absent), and `setTimeout(() => modal.remove(), 300)`. -/
def closeModal (handlerId target : Nat) (s : DocState) : DocState :=
  { s with
    keydownHandlers := s.keydownHandlers.erase handlerId
    visible := s.visible.erase target
    pendingRemovals := s.pendingRemovals ++ [target] }

/-- State after every pending 300 ms removal timeout has fired, in order;
each runs `modal.remove()`, a no-op when the node is already detached. -/
def settle (s : DocState) : DocState :=
  { s with
    modals := s.pendingRemovals.foldl (fun m t => m.erase t) s.modals
    pendingRemovals := [] }

end NotifyMe

namespace NotifyMe

/-! ## Theorems for the variant availability watcher -/

/-- **C1.** For every variant-update or variant-selected event received by
the component (with the notify button present), `handleVariantUpdate`
makes the control visible exactly when the resource of the payload is present
with `available === false`; it hides the control when the resource is
present with `available === true` and when the resource is absent, null,
or malformed (non-boolean `available`). -/
theorem handleVariantUpdate_visibility
    (t : ThemeEventType) (resource : Option Variant) :
    (onVariantEvent t true resource = .shown ↔
      ∃ v : Variant, resource = some v ∧ v.available = some false) ∧
    (onVariantEvent t true resource = .shown ∨
      onVariantEvent t true resource = .hidden) := by
  cases resource with
  | none => simp [onVariantEvent, handleVariantUpdate]
  | some v =>
    cases hav : v.available with
    | none => simp [onVariantEvent, handleVariantUpdate, hav]
    | some b => cases b <;> simp [onVariantEvent, handleVariantUpdate, hav]

/-- **C2.** `getVariantId` consults its four sources in exactly the order
product-form input, section inputs, variant-picker checked input, URL
parameter, returning the first non-empty value and `none` if no tier
yields one; in particular a tier-1 product-form value wins over a URL
parameter, and a URL parameter alone is used. -/
theorem getVariantId_order (d : Dom) :
    getVariantId d =
      ((tierProductForm d).or ((tierSection d).or
        ((tierPicker d).or (tierUrl d)))) ∧
    (∀ v, tierProductForm d = some v → getVariantId d = some v) ∧
    (tierProductForm d = none → tierSection d = none → tierPicker d = none →
      getVariantId d = tierUrl d) ∧
    (tierProductForm d = none → tierSection d = none → tierPicker d = none →
      tierUrl d = none → getVariantId d = none) := by
  refine ⟨?_, ?_, ?_, ?_⟩
  · unfold getVariantId
    cases tierProductForm d <;> cases tierSection d <;>
      cases tierPicker d <;> cases tierUrl d <;> rfl
  · intro v hv
    unfold getVariantId
    rw [hv]
  · intro h1 h2 h3
    unfold getVariantId
    rw [h1, h2, h3]
    cases tierUrl d <;> rfl
  · intro h1 h2 h3 h4
    unfold getVariantId
    rw [h1, h2, h3, h4]

/-- Witness for C2: with a product-form value `"111"` and a URL parameter
`"222"` both present, the product-form value wins; with only the URL
parameter, it is used; with no source, the result is `none`. -/
theorem getVariantId_order_witness :
    getVariantId ⟨some (some "111"), none, none, some "222"⟩ = some "111" ∧
    getVariantId ⟨none, none, none, some "222"⟩ = some "222" ∧
    getVariantId ⟨none, none, none, none⟩ = none := by
  refine ⟨?_, ?_, ?_⟩
  · exact (getVariantId_order ⟨some (some "111"), none, none, some "222"⟩).2.1
      "111" (by decide)
  · exact (getVariantId_order ⟨none, none, none, some "222"⟩).2.2.1
      (by decide) (by decide) (by decide)
  · exact (getVariantId_order ⟨none, none, none, none⟩).2.2.2
      (by decide) (by decide) (by decide) (by decide)

end NotifyMe

namespace NotifyMe

/-! ## Theorems for the submission flow -/

/-- **C3** fails as stated: a submission with a resolved variant and a
valid email where the server responds with HTTP success status 200 but a
body that does not parse as JSON (for example an empty body) makes
`return response.json()` reject at the caller, so the handler shows the
raw parse error instead of the success message, does NOT clear the email
input, and schedules no modal close. -/
theorem submitSuccess_counterexample :
    (handleSubmit "user@example.com" ⟨none, none, none, some "123"⟩
        (.response true 200 (.failed ⟨"SyntaxError", "Unexpected end of JSON input"⟩))
        "Notify Me").message =
      some ("Unexpected end of JSON input", "error") ∧
    (handleSubmit "user@example.com" ⟨none, none, none, some "123"⟩
        (.response true 200 (.failed ⟨"SyntaxError", "Unexpected end of JSON input"⟩))
        "Notify Me").emailValue = "user@example.com" ∧
    (handleSubmit "user@example.com" ⟨none, none, none, some "123"⟩
        (.response true 200 (.failed ⟨"SyntaxError", "Unexpected end of JSON input"⟩))
        "Notify Me").closeDelayMs = none ∧
    ("Unexpected end of JSON input" : String) ≠ successMessage := by
  decide

/-- **C3 (amended).** For every submission with a resolved variant id and
a valid email where the server responds with an HTTP success status AND a
body that parses as JSON, the submit handler shows the success
confirmation message, clears the email input, and schedules the modal to
close after the fixed 2500 ms delay. -/
theorem submitSuccess (emailRaw : String) (dom : Dom) (lbl : String)
    (status : Nat) (body : JsonBody) (vid : String)
    (h1 : jsTrim emailRaw ≠ "")
    (h2 : '@' ∈ (jsTrim emailRaw).data)
    (hvar : getVariantId dom = some vid) :
    handleSubmit emailRaw dom (.response true status (.parsed body)) lbl =
      { message := some (successMessage, "success")
        request := some (vid, jsTrim emailRaw)
        busy := some (true, "Submitting...")
        emailValue := ""
        closeDelayMs := some 2500
        buttonDisabled := false
        buttonLabel := lbl } := by
  have hnet : submitNotification (.response true status (.parsed body)) = .ok () := rfl
  simp [handleSubmit, h1, h2, hvar, hnet]

/-- Witness for C3 (amended): a concrete valid submission against a
successful JSON response. -/
theorem submitSuccess_witness :
    handleSubmit "user@example.com" ⟨none, none, none, some "123"⟩
        (.response true 200 (.parsed ⟨none, none⟩)) "Notify Me" =
      { message := some (successMessage, "success")
        request := some ("123", "user@example.com")
        busy := some (true, "Submitting...")
        emailValue := ""
        closeDelayMs := some 2500
        buttonDisabled := false
        buttonLabel := "Notify Me" } := by
  have h := submitSuccess "user@example.com" ⟨none, none, none, some "123"⟩
    "Notify Me" 200 ⟨none, none⟩ "123" (by decide) (by decide) (by decide)
  rw [h]
  decide

/-- **C4.** A submission shows the validation error message with no
network request exactly when the email is empty after trimming or lacks
an `@` character: validation accepts exactly the non-empty,
`@`-containing trimmed emails. -/
theorem submitValidation (emailRaw : String) (dom : Dom)
    (net : FetchOutcome) (lbl : String) :
    ((handleSubmit emailRaw dom net lbl).message = some (validationMessage, "error") ∧
      (handleSubmit emailRaw dom net lbl).request = none) ↔
    (jsTrim emailRaw = "" ∨ '@' ∉ (jsTrim emailRaw).data) := by
  by_cases h1 : jsTrim emailRaw = ""
  · simp [handleSubmit, h1]
  · by_cases h2 : '@' ∈ (jsTrim emailRaw).data
    · cases hv : getVariantId dom with
      | none =>
        simp [handleSubmit, h1, h2, hv, validationMessage, variantErrorMessage]
      | some vid =>
        cases hn : submitNotification net with
        | ok u => simp [handleSubmit, h1, h2, hv, hn]
        | error e => simp [handleSubmit, h1, h2, hv, hn]
    · simp [handleSubmit, h1, h2]

/-- **C5.** For every submission with a valid email where `getVariantId`
returns `none`, the handler shows the unresolved-variant error message
and issues no network request (and does not touch the submit button or
the email input). -/
theorem submitVariantUnresolved (emailRaw : String) (dom : Dom)
    (net : FetchOutcome) (lbl : String)
    (h1 : jsTrim emailRaw ≠ "")
    (h2 : '@' ∈ (jsTrim emailRaw).data)
    (hvar : getVariantId dom = none) :
    handleSubmit emailRaw dom net lbl =
      { message := some (variantErrorMessage, "error")
        request := none
        busy := none
        emailValue := emailRaw
        closeDelayMs := none
        buttonDisabled := false
        buttonLabel := lbl } := by
  simp [handleSubmit, h1, h2, hvar]

/-- Witness for C5: a valid email with every variant source absent. -/
theorem submitVariantUnresolved_witness :
    handleSubmit "user@example.com" ⟨none, none, none, none⟩
        (.reject ⟨"TypeError", "Failed to fetch"⟩) "Notify Me" =
      { message := some (variantErrorMessage, "error")
        request := none
        busy := none
        emailValue := "user@example.com"
        closeDelayMs := none
        buttonDisabled := false
        buttonLabel := "Notify Me" } :=
  submitVariantUnresolved "user@example.com" ⟨none, none, none, none⟩
    (.reject ⟨"TypeError", "Failed to fetch"⟩) "Notify Me"
    (by decide) (by decide) (by decide)

/-- **C6.** Every submission that reaches the network call runs with the
submit control disabled and its label replaced by the busy indicator, and
on every exit path — success, server-reported error, parse failure, or
network error — the control ends re-enabled with its original label
restored. -/
theorem submitButtonRestore (emailRaw : String) (dom : Dom)
    (net : FetchOutcome) (lbl : String)
    (h : (handleSubmit emailRaw dom net lbl).request ≠ none) :
    (handleSubmit emailRaw dom net lbl).busy = some (true, "Submitting...") ∧
    (handleSubmit emailRaw dom net lbl).buttonDisabled = false ∧
    (handleSubmit emailRaw dom net lbl).buttonLabel = lbl := by
  by_cases h1 : jsTrim emailRaw = ""
  · exact absurd (by simp [handleSubmit, h1]) h
  · by_cases h2 : '@' ∈ (jsTrim emailRaw).data
    · cases hv : getVariantId dom with
      | none => exact absurd (by simp [handleSubmit, h1, h2, hv]) h
      | some vid =>
        cases hn : submitNotification net with
        | ok u => simp [handleSubmit, h1, h2, hv, hn]
        | error e => simp [handleSubmit, h1, h2, hv, hn]
    · exact absurd (by simp [handleSubmit, h1, h2]) h

/-- Witness for C6: a concrete submission whose network call fails still
ends with the button re-enabled and its label restored. -/
theorem submitButtonRestore_witness :
    (handleSubmit "user@example.com" ⟨none, none, none, some "123"⟩
        (.reject ⟨"TypeError", "Failed to fetch"⟩) "Notify Me").busy =
      some (true, "Submitting...") ∧
    (handleSubmit "user@example.com" ⟨none, none, none, some "123"⟩
        (.reject ⟨"TypeError", "Failed to fetch"⟩) "Notify Me").buttonDisabled = false ∧
    (handleSubmit "user@example.com" ⟨none, none, none, some "123"⟩
        (.reject ⟨"TypeError", "Failed to fetch"⟩) "Notify Me").buttonLabel = "Notify Me" :=
  submitButtonRestore "user@example.com" ⟨none, none, none, some "123"⟩
    (.reject ⟨"TypeError", "Failed to fetch"⟩) "Notify Me" (by decide)

end NotifyMe

namespace NotifyMe

/-- **C7** fails as stated: browsers signal a transport-level fetch
failure by rejecting with a `TypeError`, but the message text is
implementation-defined, and the code substitutes the generic connectivity
message only when that text contains `fetch` (lines 376–380).  A
`TypeError` with message `Load failed` (the text Safari uses) is rethrown
unchanged, so the user sees the raw underlying error text. -/
theorem networkError_counterexample :
    (handleSubmit "user@example.com" ⟨none, none, none, some "123"⟩
        (.reject ⟨"TypeError", "Load failed"⟩) "Notify Me").message =
      some ("Load failed", "error") ∧
    ("Load failed" : String) ≠ networkErrorMessage := by
  decide

/-- **C7 (amended).** For every submission reaching the network call whose
fetch rejects with a `TypeError` whose message contains `fetch`, the user
is shown the fixed generic connectivity message verbatim — not the raw
rejection text — and that message is distinct from the server-error
fallbacks (the generic catch fallback and every `HTTP <status>` message). -/
theorem networkError_generic (emailRaw : String) (dom : Dom) (lbl : String)
    (err : JsError) (vid : String)
    (h1 : jsTrim emailRaw ≠ "")
    (h2 : '@' ∈ (jsTrim emailRaw).data)
    (hvar : getVariantId dom = some vid)
    (hname : err.name = "TypeError")
    (hmsg : strIncludes err.message "fetch" = true) :
    (handleSubmit emailRaw dom (.reject err) lbl).message =
      some (networkErrorMessage, "error") ∧
    networkErrorMessage ≠ genericErrorMessage ∧
    (∀ s : String, networkErrorMessage ≠ "HTTP " ++ s) := by
  refine ⟨?_, by decide, ?_⟩
  · have hnet : submitNotification (.reject err) =
        .error ⟨"Error", networkErrorMessage⟩ := by
      simp [submitNotification, hname, hmsg]
    simp [handleSubmit, h1, h2, hvar, hnet, jsOrString, networkErrorMessage]
  · intro s hcontra
    have hd : networkErrorMessage.data = ("HTTP " ++ s).data :=
      congrArg String.data hcontra
    rw [String.data_append] at hd
    have h5 : ("HTTP ".data ++ s.data).head? = some 'H' := rfl
    rw [← hd] at h5
    have h4 : networkErrorMessage.data.head? = some 'N' := rfl
    rw [h4] at h5
    exact absurd h5 (by decide)

/-- Witness for C7 (amended): a Chrome-style rejection message
(`Failed to fetch`) yields the generic connectivity message. -/
theorem networkError_generic_witness :
    (handleSubmit "user@example.com" ⟨none, none, none, some "123"⟩
        (.reject ⟨"TypeError", "Failed to fetch"⟩) "Notify Me").message =
      some (networkErrorMessage, "error") :=
  (networkError_generic "user@example.com" ⟨none, none, none, some "123"⟩
    "Notify Me" ⟨"TypeError", "Failed to fetch"⟩ "123"
    (by decide) (by decide) (by decide) (by decide) (by decide)).1

end NotifyMe

namespace NotifyMe

/-- **C9** fails as stated: the removal scope is not remembered from
subscription time but recomputed at disconnect time.  A component attached
inside section `0` subscribes on that section; if the component alone is
then removed from the section, `closest` at `disconnectedCallback` time
finds no section ancestor, the removal targets the document, and both
section-scoped listeners survive — a leak. -/
theorem listenerScope_counterexample :
    disconnectedCallback none 7 (setupVariantUpdateListener (some 0) 7 []) =
      [⟨.sectionScope 0, .variantUpdate, 7⟩,
       ⟨.sectionScope 0, .variantSelected, 7⟩] ∧
    resolveScope none ≠ resolveScope (some 0) := by
  decide

/-- **C9 (amended).** `disconnectedCallback` removes the two variant-event
listeners from the scope recomputed at detachment time; whenever the
closest-section lookup gives the same result as at attachment time (for
example when the section subtree is detached as a whole, or the component
was never inside a section), that scope is the same object the listeners
were added on, and both listeners are removed with no leak. -/
theorem listenerScope_cleanup (cConn cDisc : Option Nat) (handler : Nat)
    (ls : List Listener)
    (hsame : cDisc = cConn)
    (h1 : (⟨resolveScope cConn, .variantUpdate, handler⟩ : Listener) ∉ ls)
    (h2 : (⟨resolveScope cConn, .variantSelected, handler⟩ : Listener) ∉ ls) :
    disconnectedCallback cDisc handler
      (setupVariantUpdateListener cConn handler ls) = ls := by
  subst hsame
  dsimp only [disconnectedCallback, setupVariantUpdateListener]
  rw [List.erase_append_right _ h1, List.erase_cons_head,
    List.erase_append_right _ h2, List.erase_cons_head, List.append_nil]

/-- Witness for C9 (amended): attachment and detachment both inside
section `0` leave no listener behind. -/
theorem listenerScope_cleanup_witness :
    disconnectedCallback (some 0) 7 (setupVariantUpdateListener (some 0) 7 []) = [] :=
  listenerScope_cleanup (some 0) (some 0) 7 [] rfl (by decide) (by decide)

end NotifyMe

namespace NotifyMe

/-- Erasing an element whose multiplicity is at most one is idempotent:
the second `erase` finds nothing to remove. -/
theorem erase_erase_self_of_count_le_one (a : Nat) (l : List Nat)
    (h : l.count a ≤ 1) : (l.erase a).erase a = l.erase a := by
  have hc := List.count_erase_self a l
  have h0 : (l.erase a).count a = 0 := by omega
  exact List.erase_of_not_mem (List.count_eq_zero.mp h0)

/-- Folding `erase` over a list never increases the multiplicity of any
element. -/
theorem count_foldl_erase_le (p m : List Nat) (a : Nat) :
    (p.foldl (fun acc t => acc.erase t) m).count a ≤ m.count a := by
  induction p generalizing m with
  | nil => simp
  | cons t p ih =>
    calc (List.foldl (fun acc t => acc.erase t) (m.erase t) p).count a
        ≤ (m.erase t).count a := ih (m.erase t)
      _ ≤ m.count a := (List.erase_sublist t m).count_le a


/-- **C8** fails as stated: every inserted modal carries the same fixed
element id, so a second `showEmailModal` with no intervening close
installs a SECOND document-level keydown listener while the first is still
active, and — because `getElementById` resolves to the first matching
node — the closures of the second open are bound to the FIRST modal node:
two conflicting keydown listeners are active at once, and the second
modal node (tag `1`) is left with no close wiring at all. -/
theorem doubleOpen_counterexample :
    (openModal (openModal DocState.init).state).state.keydownHandlers = [0, 1] ∧
    (openModal DocState.init).target = 0 ∧
    (openModal (openModal DocState.init).state).target = 0 ∧
    (openModal (openModal DocState.init).state).state.modals = [0, 1] := by
  decide

/-- **C8 (amended).** Each close removes exactly the keydown listener that
the corresponding open installed: afterwards that listener is gone and the
multiplicity of every other listener is unchanged (under the freshness of
listener tags that `openModal` guarantees).  However, opening the modal
twice in succession does leave both document-level keydown listeners
active simultaneously, both bound to the first modal node. -/
theorem keydownListener_exactRemoval (s : DocState) (hid tgt : Nat)
    (hcount : s.keydownHandlers.count hid ≤ 1) :
    (closeModal hid tgt s).keydownHandlers = s.keydownHandlers.erase hid ∧
    hid ∉ (closeModal hid tgt s).keydownHandlers ∧
    (∀ h, h ≠ hid → (closeModal hid tgt s).keydownHandlers.count h =
      s.keydownHandlers.count h) ∧
    (openModal (openModal DocState.init).state).state.keydownHandlers =
      [(openModal DocState.init).handlerId,
        (openModal (openModal DocState.init).state).handlerId] := by
  refine ⟨rfl, ?_, ?_, by decide⟩
  · have hc := List.count_erase_self hid s.keydownHandlers
    have h0 : (s.keydownHandlers.erase hid).count hid = 0 := by omega
    exact List.count_eq_zero.mp h0
  · intro h hne
    exact List.count_erase_of_ne hne s.keydownHandlers

/-- Witness for C8 (amended): after two opens, closing via the listener of
the second open removes exactly that listener and leaves the listener of
the first open in place. -/
theorem keydownListener_exactRemoval_witness :
    (closeModal 1 0 (openModal (openModal DocState.init).state).state).keydownHandlers =
      [0] ∧
    (1 : Nat) ∉
      (closeModal 1 0 (openModal (openModal DocState.init).state).state).keydownHandlers := by
  have h := keydownListener_exactRemoval
    (openModal (openModal DocState.init).state).state 1 0 (by decide)
  refine ⟨?_, h.2.1⟩
  rw [h.1]
  decide

/-- **C10.** `closeModal` is idempotent for one modal instance: invoking
it twice (for example backdrop click then Escape inside the 300 ms removal
window) removes the keydown listener once (the second
`removeEventListener` is a no-op), leaves the visibility class removed,
and after all scheduled timeouts fire the modal node ends up removed
exactly as after a single invocation, the repeated `remove()` being a
no-op rather than an error.  The multiplicity hypotheses hold in every
reachable state, where node and listener tags are fresh. -/
theorem closeModal_idempotent (s : DocState) (hid tgt : Nat)
    (hm : s.modals.count tgt ≤ 1) (hv : s.visible.count tgt ≤ 1)
    (hk : s.keydownHandlers.count hid ≤ 1) :
    settle (closeModal hid tgt (closeModal hid tgt s)) =
      settle (closeModal hid tgt s) ∧
    (closeModal hid tgt (closeModal hid tgt s)).keydownHandlers =
      (closeModal hid tgt s).keydownHandlers ∧
    tgt ∉ (settle (closeModal hid tgt s)).modals := by
  have hk2 : (s.keydownHandlers.erase hid).erase hid = s.keydownHandlers.erase hid :=
    erase_erase_self_of_count_le_one hid s.keydownHandlers hk
  have hv2 : (s.visible.erase tgt).erase tgt = s.visible.erase tgt :=
    erase_erase_self_of_count_le_one tgt s.visible hv
  have hBle : (s.pendingRemovals.foldl (fun m t => m.erase t) s.modals).count tgt ≤ 1 :=
    le_trans (count_foldl_erase_le s.pendingRemovals s.modals tgt) hm
  have hm2 : ((s.pendingRemovals.foldl (fun m t => m.erase t) s.modals).erase tgt).erase tgt =
      (s.pendingRemovals.foldl (fun m t => m.erase t) s.modals).erase tgt :=
    erase_erase_self_of_count_le_one tgt _ hBle
  refine ⟨?_, hk2, ?_⟩
  · dsimp only [settle, closeModal]
    simp only [List.foldl_append, List.foldl_cons, List.foldl_nil]
    rw [hv2, hk2, hm2]
  · dsimp only [settle, closeModal]
    simp only [List.foldl_append, List.foldl_cons, List.foldl_nil]
    have hc := List.count_erase_self tgt
      (s.pendingRemovals.foldl (fun m t => m.erase t) s.modals)
    exact List.count_eq_zero.mp (by omega)

/-- Witness for C10: closing the single open modal twice has the same
settled effect as closing it once, and the node ends up removed. -/
theorem closeModal_idempotent_witness :
    settle (closeModal 0 0 (closeModal 0 0 (openModal DocState.init).state)) =
      settle (closeModal 0 0 (openModal DocState.init).state) ∧
    (0 : Nat) ∉ (settle (closeModal 0 0 (openModal DocState.init).state)).modals :=
  ⟨(closeModal_idempotent (openModal DocState.init).state 0 0
      (by decide) (by decide) (by decide)).1,
    (closeModal_idempotent (openModal DocState.init).state 0 0
      (by decide) (by decide) (by decide)).2.2⟩

end NotifyMe
